import Mathlib

/-!
Verification of the AI scaling examples (ai_scaling_engine.py,
k8s_hpa_manager.py, schedule_generator.py).

Modelling conventions:
* Python floats are modelled as `ℚ` (the decimal literals appearing in the
  code are exact in `ℚ`); machine integers as `ℤ`.
* Python `int(x)` truncates toward zero; this is `pyInt` below.
* Python division raising `ZeroDivisionError` is modelled with
  `Except String` results where a zero denominator is reachable.
* `json.loads` is modelled by an arbitrary partial parser
  `String → Option DecisionData`; `None` stands for any `JSONDecodeError`.
* The Anthropic client call is modelled by an arbitrary
  `String → Except String String` (an `.error` result stands for any
  exception raised inside the `try` block of `_ai_based_decision`).
-/

/-- Python `int()` applied to a rational: truncation toward zero. -/
def pyInt (q : ℚ) : ℤ := if q < 0 then ⌈q⌉ else ⌊q⌋

/-- Arithmetic mean of a list of rationals (call sites guarantee nonempty
lists; on `[]` this yields `0` by `ℚ` convention). -/
def meanQ (l : List ℚ) : ℚ := l.sum / (l.length : ℚ)

/-! ## ai_scaling_engine.py -/

/-- Container for current system metrics (`ScalingMetrics.__init__`);
the `timestamp` field is never read by the functions modelled here. -/
structure ScalingMetrics where
  cpu_utilization : ℚ
  memory_utilization : ℚ
  request_rate : ℚ
  response_time_ms : ℚ
  error_rate : ℚ
  active_connections : ℤ
  queue_depth : ℤ
  current_pod_count : ℤ
deriving DecidableEq, Repr

/-- A scaling decision (`ScalingDecision.__init__`); the `timestamp`
field is never read by the functions modelled here. -/
structure ScalingDecision where
  action : String
  recommended_pod_count : Option ℤ
  recommended_memory_increase : Option String
  recommended_cpu_increase : Option String
  confidence : ℚ
  reasoning : String
  urgency : String
  estimated_cost_impact : Option String
deriving DecidableEq, Repr

/-- `AIScalingEngine._rule_based_decision`. -/
def ruleBasedDecision (m : ScalingMetrics) : ScalingDecision :=
  if m.cpu_utilization > 80 ∨ m.memory_utilization > 85 then
    if m.memory_utilization > 90 then
      { action := "scale_up_vertical"
        recommended_pod_count := none
        recommended_memory_increase := some "50%"
        recommended_cpu_increase := none
        confidence := 0.85
        reasoning := "Memory utilization >90%, vertical scaling recommended"
        urgency := "high"
        estimated_cost_impact := none }
    else
      { action := "scale_up_horizontal"
        recommended_pod_count := some (pyInt ((m.current_pod_count : ℚ) * 1.5))
        recommended_memory_increase := none
        recommended_cpu_increase := none
        confidence := 0.80
        reasoning := "High CPU/memory utilization detected"
        urgency := "high"
        estimated_cost_impact := none }
  else if m.cpu_utilization < 20 ∧ m.memory_utilization < 30 ∧ m.current_pod_count > 2 then
    { action := "scale_down_horizontal"
      recommended_pod_count := some (max 2 (pyInt ((m.current_pod_count : ℚ) * 0.7)))
      recommended_memory_increase := none
      recommended_cpu_increase := none
      confidence := 0.75
      reasoning := "Low resource utilization, system over-provisioned"
      urgency := "low"
      estimated_cost_impact := none }
  else
    { action := "maintain"
      recommended_pod_count := some m.current_pod_count
      recommended_memory_increase := none
      recommended_cpu_increase := none
      confidence := 0.90
      reasoning := "All metrics within acceptable ranges"
      urgency := "normal"
      estimated_cost_impact := none }

/-- The dictionary produced by `json.loads` on the model response, with
each key optional (`decision_data.get`). -/
structure DecisionData where
  action : Option String
  recommended_pod_count : Option ℤ
  recommended_memory_increase : Option String
  recommended_cpu_increase : Option String
  confidence : Option ℚ
  reasoning : Option String
  urgency : Option String
  estimated_cost_impact : Option String
deriving DecidableEq, Repr

/-- Building the `ScalingDecision` from parsed data, with the defaults of
`decision_data.get(...)` used in `_ai_based_decision`. -/
def decisionFromData (d : DecisionData) : ScalingDecision :=
  { action := d.action.getD "maintain"
    recommended_pod_count := d.recommended_pod_count
    recommended_memory_increase := d.recommended_memory_increase
    recommended_cpu_increase := d.recommended_cpu_increase
    confidence := d.confidence.getD 0
    reasoning := d.reasoning.getD ""
    urgency := d.urgency.getD "normal"
    estimated_cost_impact := d.estimated_cost_impact }

/-- The response-text cleanup of `_ai_based_decision`: `.strip()`, then
removal of a leading markdown code fence (`split("```")[1]`, dropping a
leading `json` tag), then `.strip()` again.  When the text starts with
the fence, `split` always has a second component, so the Python index
`[1]` cannot fail; `getD` is used with an unreachable default. -/
def stripFences (s : String) : String :=
  let t := s.trim
  if t.startsWith "```" then
    let seg := (t.splitOn "```").getD 1 ""
    let seg := if seg.startsWith "json" then seg.drop 4 else seg
    seg.trim
  else t

/-- The parse-and-build part of `_ai_based_decision` (lines 276-301): on a
successful parse the decision is built from the data, on any parse
failure the `except` clause returns the rule-based decision for the same
snapshot. -/
def aiDecodeOrFallback (parse : String → Option DecisionData) (m : ScalingMetrics)
    (raw : String) : ScalingDecision :=
  match parse (stripFences raw) with
  | some d => decisionFromData d
  | none => ruleBasedDecision m

/-- `AIScalingEngine._calculate_trend`.  The percentage embedded in the
returned f-strings is elided; only the tag words are kept.  The division
by `overall_avg` raises `ZeroDivisionError` in Python when the overall
average is zero, modelled by the `.error` branch. -/
def calculateTrend (values : List ℚ) : Except String String :=
  if values.length < 2 then Except.ok "insufficient data"
  else
    let recent := values.drop (values.length - 3)
    let recent_avg := recent.sum / ((min 3 recent.length : ℕ) : ℚ)
    let overall_avg := values.sum / (values.length : ℚ)
    if overall_avg = 0 then Except.error "ZeroDivisionError"
    else
      let diff_percent := (recent_avg - overall_avg) / overall_avg * 100
      if diff_percent > 10 then Except.ok "increasing"
      else if diff_percent < -10 then Except.ok "decreasing"
      else Except.ok "stable"

/-- `AIScalingEngine._prepare_ai_context`: for a nonempty history the
three trends are computed (each can raise); the exact text assembled
around them is abbreviated. -/
def prepareAIContext (hist : List ScalingMetrics) : Except String String :=
  if 0 < hist.length then do
    let cpu_trend ← calculateTrend (hist.map (fun m => m.cpu_utilization))
    let memory_trend ← calculateTrend (hist.map (fun m => m.memory_utilization))
    let rps_trend ← calculateTrend (hist.map (fun m => m.request_rate))
    pure ("HISTORICAL TRENDS: CPU " ++ cpu_trend ++ ", Memory " ++ memory_trend
      ++ ", RPS " ++ rps_trend)
  else pure ""

/-- `AIScalingEngine._ai_based_decision`: context preparation happens
before the `try` block (so its exceptions propagate); everything inside
the `try` (the client call and the JSON decode) falls back to the
rule-based decision on failure. -/
def aiBasedDecision (parse : String → Option DecisionData)
    (backend : String → Except String String) (m : ScalingMetrics)
    (hist : List ScalingMetrics) : Except String ScalingDecision := do
  let ctx ← prepareAIContext hist
  match backend ctx with
  | Except.error _ => pure (ruleBasedDecision m)
  | Except.ok raw => pure (aiDecodeOrFallback parse m raw)

/-- `AIScalingEngine.analyze_metrics` (tracing and Prometheus counters
elided): rule-based when no client is configured, AI-based otherwise. -/
def analyzeMetrics (hasClient : Bool) (parse : String → Option DecisionData)
    (backend : String → Except String String) (m : ScalingMetrics)
    (hist : List ScalingMetrics) : Except String ScalingDecision :=
  if hasClient then aiBasedDecision parse backend m hist
  else pure (ruleBasedDecision m)

/-! ## k8s_hpa_manager.py -/

/-- `HPAConfiguration` fields (`namespace` is a Lean keyword, renamed to
`nspace`). -/
structure HPAConfig where
  name : String
  nspace : String
  min_replicas : ℤ
  max_replicas : ℤ
  target_cpu_utilization : ℤ
  target_memory_utilization : ℤ
deriving DecidableEq, Repr

/-- The validity conditions checked by `HPAConfiguration.__init__`. -/
def validHPA (c : HPAConfig) : Prop :=
  1 ≤ c.min_replicas ∧ c.min_replicas ≤ c.max_replicas ∧
    (1 ≤ c.target_cpu_utilization ∧ c.target_cpu_utilization ≤ 100) ∧
    (1 ≤ c.target_memory_utilization ∧ c.target_memory_utilization ≤ 100)

instance (c : HPAConfig) : Decidable (validHPA c) := by
  unfold validHPA
  infer_instance

/-- `HPAConfiguration.__init__`: the four `ValueError` guards, in source
order; on success the object with exactly the given fields. -/
def mkHPAConfiguration (name nspace : String) (min_replicas max_replicas : ℤ)
    (target_cpu_utilization target_memory_utilization : ℤ) : Except String HPAConfig :=
  if min_replicas < 1 then Except.error "min_replicas must be at least 1"
  else if max_replicas < min_replicas then Except.error "max_replicas must be >= min_replicas"
  else if ¬ (1 ≤ target_cpu_utilization ∧ target_cpu_utilization ≤ 100) then
    Except.error "target_cpu_utilization must be between 1 and 100"
  else if ¬ (1 ≤ target_memory_utilization ∧ target_memory_utilization ≤ 100) then
    Except.error "target_memory_utilization must be between 1 and 100"
  else Except.ok
    { name := name, nspace := nspace, min_replicas := min_replicas,
      max_replicas := max_replicas, target_cpu_utilization := target_cpu_utilization,
      target_memory_utilization := target_memory_utilization }

/-- The result dictionary built by `_apply_decision_to_hpa`; the two
possible entries of `result["changes"]` are the `(old, new)` pairs for
`min_replicas` and `max_replicas` (always set together), `timestamp` is
elided. -/
structure ApplyResult where
  hpa_name : String
  decision : ScalingDecision
  changes_min : Option (ℤ × ℤ)
  changes_max : Option (ℤ × ℤ)
  applied : Bool
  dry_run : Bool
  note : Option String
  recommendation : Option (Option String × Option String)
deriving DecidableEq, Repr

/-- The decision dispatch of `_apply_decision_to_hpa` (lines 186-232):
the config mutation and the recorded changes.  `if decision.recommended_pod_count:`
is Python truthiness: `None` and `0` are falsy. -/
def applyStep (cfg : HPAConfig) (d : ScalingDecision) (dryRun : Bool) :
    HPAConfig × ApplyResult :=
  let base : ApplyResult :=
    { hpa_name := cfg.name, decision := d, changes_min := none, changes_max := none,
      applied := false, dry_run := dryRun, note := none, recommendation := none }
  if d.action = "scale_up_horizontal" then
    match d.recommended_pod_count with
    | some r =>
      if r ≠ 0 then
        let new_max := max (r + 5) cfg.max_replicas
        let new_min := max cfg.min_replicas (pyInt ((r : ℚ) * 0.5))
        ({ cfg with min_replicas := new_min, max_replicas := new_max },
         { base with changes_min := some (cfg.min_replicas, new_min),
                     changes_max := some (cfg.max_replicas, new_max) })
      else (cfg, base)
    | none => (cfg, base)
  else if d.action = "scale_down_horizontal" then
    match d.recommended_pod_count with
    | some r =>
      if r ≠ 0 then
        let new_max := r + 3
        let new_min := max 2 (r - 1)
        ({ cfg with min_replicas := new_min, max_replicas := new_max },
         { base with changes_min := some (cfg.min_replicas, new_min),
                     changes_max := some (cfg.max_replicas, new_max) })
      else (cfg, base)
    | none => (cfg, base)
  else if d.action = "scale_up_vertical" ∨ d.action = "scale_down_vertical" then
    (cfg, { base with
              note := some "Vertical scaling requires deployment resource updates, not HPA changes",
              recommendation := some (d.recommended_memory_increase, d.recommended_cpu_increase) })
  else if d.action = "maintain" then
    (cfg, { base with note := some "No HPA changes needed, current configuration is appropriate" })
  else (cfg, base)

/-- `K8sHPAManager._apply_decision_to_hpa` in full: the dispatch above
followed by the apply / dry-run bookkeeping (lines 234-243).
`clusterOk` is the boolean returned by `_apply_hpa_to_cluster`, which
catches all of its own exceptions. -/
def applyDecisionToHpa (cfg : HPAConfig) (d : ScalingDecision) (dryRun clusterOk : Bool) :
    HPAConfig × ApplyResult :=
  let step := applyStep cfg d dryRun
  let res := step.2
  let hasChanges := res.changes_min.isSome || res.changes_max.isSome
  if hasChanges && !dryRun then
    (step.1, { res with applied := clusterOk })
  else if hasChanges then
    (step.1, { res with note := some "Dry-run mode: Changes not applied to cluster" })
  else (step.1, res)

theorem applyDecisionToHpa_fst (cfg : HPAConfig) (d : ScalingDecision)
    (dryRun clusterOk : Bool) :
    (applyDecisionToHpa cfg d dryRun clusterOk).1 = (applyStep cfg d dryRun).1 := by
  simp only [applyDecisionToHpa]
  split_ifs <;> rfl

/-! ## schedule_generator.py

The history passed to `analyze_patterns` / `generate_schedule` is a list
of `(timestamp, metrics)` pairs; the modelled functions only ever read
`timestamp.hour` (the day-of-week grouping `daily_patterns` is computed
by the source but not consumed by any modelled output, and is elided),
so a timestamp is modelled by its hour, a `Fin 24`. -/

/-- The group `hourly_patterns[h]`: the metrics of the history entries
whose timestamp has hour `h`, in history order. -/
def metricsAtHour (history : List (Fin 24 × ScalingMetrics)) (h : Fin 24) :
    List ScalingMetrics :=
  (history.filter (fun p => p.1 == h)).map Prod.snd

/-- The distinct hours having data, in first-occurrence order (the key
order of the `defaultdict`). -/
def hourKeys (history : List (Fin 24 × ScalingMetrics)) : List (Fin 24) :=
  (history.map Prod.fst).dedup

/-- The distinct hours having data in ascending order: hours are `Fin 24`
values, so Python's `sorted(hourly_averages.keys())` equals the sublist
of `0, ..., 23` consisting of the keys. -/
def sortedHours (history : List (Fin 24 × ScalingMetrics)) : List (Fin 24) :=
  (List.finRange 24).filter (fun h => decide (h ∈ hourKeys history))

/-- Hourly mean of `cpu_utilization` (the `"cpu"` entry of
`hourly_averages[h]`). -/
def meanCpuAt (history : List (Fin 24 × ScalingMetrics)) (h : Fin 24) : ℚ :=
  meanQ ((metricsAtHour history h).map (fun m => m.cpu_utilization))

/-- Hourly mean of `memory_utilization` (the `"memory"` entry). -/
def meanMemoryAt (history : List (Fin 24 × ScalingMetrics)) (h : Fin 24) : ℚ :=
  meanQ ((metricsAtHour history h).map (fun m => m.memory_utilization))

/-- Hourly mean of `request_rate` (the `"rps"` entry). -/
def meanRpsAt (history : List (Fin 24 × ScalingMetrics)) (h : Fin 24) : ℚ :=
  meanQ ((metricsAtHour history h).map (fun m => m.request_rate))

/-- Hourly mean of `current_pod_count` (the `"avg_pods"` entry). -/
def meanPodsAt (history : List (Fin 24 × ScalingMetrics)) (h : Fin 24) : ℚ :=
  meanQ ((metricsAtHour history h).map (fun m => (m.current_pod_count : ℚ)))

/-- The per-hour averages record of `analyze_patterns` (the unused
`"max_pods"` entry is elided). -/
structure HourlyAvg where
  cpu : ℚ
  memory : ℚ
  rps : ℚ
  avg_pods : ℚ
deriving DecidableEq, Repr

/-- The `hourly_averages[h]` record. -/
def hourlyAvgAt (history : List (Fin 24 × ScalingMetrics)) (h : Fin 24) : HourlyAvg :=
  { cpu := meanCpuAt history h, memory := meanMemoryAt history h,
    rps := meanRpsAt history h, avg_pods := meanPodsAt history h }

/-- `avg_cpu` of `_identify_peak_hours` / `_identify_low_hours`: the mean
of the hourly mean cpus (`len(hourly_averages)` is the number of
distinct hours). -/
def globalMeanCpu (history : List (Fin 24 × ScalingMetrics)) : ℚ :=
  meanQ ((hourKeys history).map (meanCpuAt history))

/-- `avg_rps` of `_identify_peak_hours` / `_identify_low_hours`. -/
def globalMeanRps (history : List (Fin 24 × ScalingMetrics)) : ℚ :=
  meanQ ((hourKeys history).map (meanRpsAt history))

/-- `_identify_peak_hours`: hours whose mean cpu or mean rps exceeds 1.5
times the global mean.  The source returns record dictionaries sorted by
cpu descending; only membership of an hour is consumed downstream
(`is_peak` in `generate_schedule`), so the hours are kept in ascending
order here. -/
def peakHours (history : List (Fin 24 × ScalingMetrics)) : List (Fin 24) :=
  (sortedHours history).filter (fun h =>
    decide (meanCpuAt history h > globalMeanCpu history * 1.5 ∨
      meanRpsAt history h > globalMeanRps history * 1.5))

/-- `_identify_low_hours`: hours whose mean cpu and mean rps are both
below half the global mean, sorted ascending by hour (the cpu/rps
payload of each returned record is elided; `low_hours` is consumed by
hour only). -/
def lowTrafficHours (history : List (Fin 24 × ScalingMetrics)) : List (Fin 24) :=
  (sortedHours history).filter (fun h =>
    decide (meanCpuAt history h < globalMeanCpu history * 0.5 ∧
      meanRpsAt history h < globalMeanRps history * 0.5))

/-- The successful result of `analyze_patterns`: the hourly averages (in
ascending hour order), the peak hours and the low-traffic hours. -/
structure PatternsResult where
  hourly : List (Fin 24 × HourlyAvg)
  peak_hours : List (Fin 24)
  low_traffic_hours : List (Fin 24)
deriving DecidableEq, Repr

/-- The pattern payload for a nonempty history. -/
def patternsOf (history : List (Fin 24 × ScalingMetrics)) : PatternsResult :=
  { hourly := (sortedHours history).map (fun h => (h, hourlyAvgAt history h))
    peak_hours := peakHours history
    low_traffic_hours := lowTrafficHours history }

/-- `ScheduleGenerator.analyze_patterns`: the empty-history guard returns
the `{"error": ...}` dictionary, modelled as the `.error` case. -/
def analyzePatterns (history : List (Fin 24 × ScalingMetrics)) :
    Except String PatternsResult :=
  if history.isEmpty then Except.error "No metrics history provided"
  else Except.ok (patternsOf history)

/-- An entry appended by `ScalingSchedule.add_entry`. -/
structure ScheduleEntry where
  time : String
  target_pods : ℤ
  reason : String
  confidence : ℚ
  day_of_week : Option String
deriving DecidableEq, Repr

/-- A `ScalingSchedule` object. -/
structure ScalingSchedule where
  name : String
  description : String
  schedule_entries : List ScheduleEntry
deriving DecidableEq, Repr

/-- Python `f"{n:02d}"` for `0 ≤ n`. -/
def fmt2 (n : ℕ) : String := if n < 10 then "0" ++ toString n else toString n

/-- The entries appended for one hour of the loop in `generate_schedule`
(lines 207-237): the optional pre-scale entry for a peak hour, then the
standard entry for the hour itself.  `(hour - 1) % 24` on `0 ≤ hour < 24`
equals `(hour + 23) % 24`. -/
def hourEntries (minPods maxPods : ℤ) (pat : PatternsResult)
    (p : Fin 24 × HourlyAvg) : List ScheduleEntry :=
  let h := p.1
  let a := p.2
  let cpu_factor := a.cpu / 70
  let memory_factor := a.memory / 80
  let scaling_factor := max cpu_factor memory_factor
  let recommended_pods := pyInt (a.avg_pods * max 1 scaling_factor)
  let recommended_pods := max minPods (min maxPods recommended_pods)
  (if h ∈ pat.peak_hours then
    [{ time := fmt2 ((h.val + 23) % 24) ++ ":30", target_pods := recommended_pods,
       reason := "Pre-scale for peak hour " ++ toString h.val ++ ":00",
       confidence := 0.9, day_of_week := none }]
  else []) ++
  [{ time := fmt2 h.val ++ ":00", target_pods := recommended_pods,
     reason := "Scheduled scaling for hour " ++ toString h.val,
     confidence := 0.85, day_of_week := none }]

/-- `ScheduleGenerator.generate_schedule`: the error schedule on empty
history, otherwise the per-hour entries (ascending hour order, as Python
iterates `sorted(hourly_averages.keys())`) followed by the scale-down
entries for the low-traffic hours. -/
def generateSchedule (history : List (Fin 24 × ScalingMetrics))
    (minPods maxPods : ℤ) : ScalingSchedule :=
  match analyzePatterns history with
  | Except.error _ => { name := "error-schedule", description := "", schedule_entries := [] }
  | Except.ok pat =>
    { name := "ai-workload-schedule"
      description := "Generated from historical metrics analysis"
      schedule_entries :=
        pat.hourly.flatMap (hourEntries minPods maxPods pat) ++
        pat.low_traffic_hours.map (fun h =>
          { time := fmt2 h.val ++ ":00", target_pods := minPods,
            reason := "Scale down during low traffic", confidence := 0.95,
            day_of_week := none }) }

/-! ## Helper lemmas -/

theorem pyInt_of_nonneg (q : ℚ) (h : 0 ≤ q) : pyInt q = ⌊q⌋ := by
  rw [pyInt, if_neg (not_lt.mpr h)]

theorem pyInt_half_le_add_five (r : ℤ) (h : 0 ≤ r) : pyInt ((r : ℚ) * 0.5) ≤ r + 5 := by
  have hr : (0 : ℚ) ≤ (r : ℚ) := by exact_mod_cast h
  rw [pyInt_of_nonneg _ (by linarith)]
  have h1 : ((r : ℚ) * 0.5) ≤ (r : ℚ) := by linarith
  calc ⌊(r : ℚ) * 0.5⌋ ≤ ⌊(r : ℚ)⌋ := Int.floor_le_floor h1
    _ = r := Int.floor_intCast r
    _ ≤ r + 5 := by omega

/-! ## C1: the horizontal scale-up branch of the rule-based decision -/

/-- The high-load spike snapshot (cpu=88, memory=85, pods=3) used in the
examples of `main()`. -/
def mSpike : ScalingMetrics :=
  { cpu_utilization := 88, memory_utilization := 85, request_rate := 620,
    response_time_ms := 920, error_rate := 11.2, active_connections := 2380,
    queue_depth := 158, current_pod_count := 3 }

/-- C1 counterexample: at cpu=88, memory=85, pods=3 the rule-based
decision recommends `int(3 * 1.5) = 4` pods, while the claim's
`ceil(3 * 1.5)` is `5`; the recommended pod count is not the ceiling. -/
theorem ruleBased_ceil_counterexample :
    (ruleBasedDecision mSpike).recommended_pod_count = some 4 ∧
    ⌈(mSpike.current_pod_count : ℚ) * 1.5⌉ = 5 ∧
    (ruleBasedDecision mSpike).recommended_pod_count ≠
      some ⌈(mSpike.current_pod_count : ℚ) * 1.5⌉ := by
  have hpods : (mSpike.current_pod_count : ℚ) = 3 := by norm_num [mSpike]
  have hceil : ⌈(mSpike.current_pod_count : ℚ) * 1.5⌉ = 5 := by
    rw [hpods, Int.ceil_eq_iff]
    norm_num
  have hdec : (ruleBasedDecision mSpike).recommended_pod_count = some 4 := by
    rw [ruleBasedDecision, if_pos (Or.inl (by norm_num [mSpike])),
      if_neg (by norm_num [mSpike] : ¬ mSpike.memory_utilization > 90)]
    rw [pyInt_of_nonneg _ (by rw [hpods]; norm_num), hpods]
    norm_num
  refine ⟨hdec, hceil, ?_⟩
  rw [hdec, hceil]
  simp

/-- C1 (amended): whenever memory ≤ 90 and (cpu > 80 or memory > 85), the
rule-based decision is `scale_up_horizontal` with
`recommended_pod_count = floor(current_pod_count * 1.5)` (Python `int`
truncation; the pod count is nonnegative), confidence 0.80 and urgency
"high"; for cpu=88, memory=85, pods=3 this gives 4 pods. -/
theorem ruleBased_scale_up_horizontal (m : ScalingMetrics)
    (hmem : m.memory_utilization ≤ 90)
    (hcond : 80 < m.cpu_utilization ∨ 85 < m.memory_utilization)
    (hpods : 0 ≤ m.current_pod_count) :
    ruleBasedDecision m =
      { action := "scale_up_horizontal"
        recommended_pod_count := some ⌊(m.current_pod_count : ℚ) * 1.5⌋
        recommended_memory_increase := none
        recommended_cpu_increase := none
        confidence := 0.80
        reasoning := "High CPU/memory utilization detected"
        urgency := "high"
        estimated_cost_impact := none } := by
  have hq : (0 : ℚ) ≤ (m.current_pod_count : ℚ) * 1.5 := by
    have : (0 : ℚ) ≤ (m.current_pod_count : ℚ) := by exact_mod_cast hpods
    linarith
  rw [ruleBasedDecision, if_pos hcond, if_neg (not_lt.mpr hmem),
    pyInt_of_nonneg _ hq]

/-- C1 witness: the amended theorem applied to the spike snapshot. -/
theorem ruleBased_scale_up_horizontal_witness :
    mSpike.memory_utilization ≤ 90 ∧
    (80 < mSpike.cpu_utilization ∨ 85 < mSpike.memory_utilization) ∧
    0 ≤ mSpike.current_pod_count ∧
    (ruleBasedDecision mSpike).recommended_pod_count = some 4 := by
  refine ⟨by norm_num [mSpike], Or.inl (by norm_num [mSpike]), by norm_num [mSpike], ?_⟩
  rw [ruleBased_scale_up_horizontal mSpike (by norm_num [mSpike])
    (Or.inl (by norm_num [mSpike])) (by norm_num [mSpike])]
  have hpods : (mSpike.current_pod_count : ℚ) = 3 := by norm_num [mSpike]
  rw [hpods]
  norm_num

/-! ## C2: the replica-count invariant after reconcile -/

/-- A valid HPA configuration matching the `main()` example
(min=3, max=20, cpu target 70, memory target 80). -/
def cfgInference : HPAConfig :=
  { name := "ai-inference-hpa", nspace := "ai-services", min_replicas := 3,
    max_replicas := 20, target_cpu_utilization := 70, target_memory_utilization := 80 }

/-- A scale-down decision carrying a negative recommended pod count. -/
def dNegDown : ScalingDecision :=
  { action := "scale_down_horizontal", recommended_pod_count := some (-2),
    recommended_memory_increase := none, recommended_cpu_increase := none,
    confidence := 0, reasoning := "", urgency := "low", estimated_cost_impact := none }

/-- C2 counterexample: reconciling a `scale_down_horizontal` decision with
`recommended_pod_count = -2` against a valid config returns successfully
but leaves `min_replicas = 2 > 1 = max_replicas`, violating the
invariant. -/
theorem reconcile_invariant_counterexample :
    validHPA cfgInference ∧
    ¬ validHPA (applyDecisionToHpa cfgInference dNegDown true false).1 := by
  constructor
  · decide
  · rw [applyDecisionToHpa_fst]
    decide

/-- C2 (amended): for every initially valid config and every decision
whose `recommended_pod_count`, when present, is nonnegative, the config
after a reconcile call satisfies 1 ≤ min_replicas ≤ max_replicas and
1 ≤ target_cpu, target_memory ≤ 100. -/
theorem reconcile_preserves_invariant (cfg : HPAConfig) (d : ScalingDecision)
    (dryRun clusterOk : Bool) (hvalid : validHPA cfg)
    (hrec : ∀ r : ℤ, d.recommended_pod_count = some r → 0 ≤ r) :
    validHPA (applyDecisionToHpa cfg d dryRun clusterOk).1 := by
  obtain ⟨h1, h2, h3, h4⟩ := hvalid
  rw [applyDecisionToHpa_fst, applyStep]
  split_ifs with hup hdown hvert hmaint
  · cases hcase : d.recommended_pod_count with
    | none => exact ⟨h1, h2, h3, h4⟩
    | some r =>
      have hr : 0 ≤ r := hrec r hcase
      by_cases hr0 : r ≠ 0
      · simp only [hcase, if_pos hr0]
        refine ⟨le_trans h1 (le_max_left _ _), ?_, h3, h4⟩
        refine max_le (le_trans h2 (le_max_right _ _)) ?_
        exact le_trans (pyInt_half_le_add_five r hr) (le_max_left _ _)
      · simp only [hcase, if_neg hr0]
        exact ⟨h1, h2, h3, h4⟩
  · cases hcase : d.recommended_pod_count with
    | none => exact ⟨h1, h2, h3, h4⟩
    | some r =>
      have hr : 0 ≤ r := hrec r hcase
      by_cases hr0 : r ≠ 0
      · simp only [hcase, if_pos hr0]
        unfold validHPA
        dsimp only
        exact ⟨le_trans (by norm_num) (le_max_left 2 (r - 1)),
          max_le (by omega) (by omega), h3, h4⟩
      · simp only [hcase, if_neg hr0]
        exact ⟨h1, h2, h3, h4⟩
  · exact ⟨h1, h2, h3, h4⟩
  · exact ⟨h1, h2, h3, h4⟩
  · exact ⟨h1, h2, h3, h4⟩

/-- A scale-up decision with a nonnegative recommended pod count (the
rule-based recommendation for the spike snapshot). -/
def dUpSix : ScalingDecision :=
  { action := "scale_up_horizontal", recommended_pod_count := some 6,
    recommended_memory_increase := none, recommended_cpu_increase := none,
    confidence := 0.80, reasoning := "High CPU/memory utilization detected",
    urgency := "high", estimated_cost_impact := none }

/-- C2 witness: the invariant theorem applied to the example config and a
scale-up decision recommending 6 pods. -/
theorem reconcile_preserves_invariant_witness :
    validHPA cfgInference ∧
    (∀ r : ℤ, dUpSix.recommended_pod_count = some r → 0 ≤ r) ∧
    validHPA (applyDecisionToHpa cfgInference dUpSix true false).1 := by
  have hrec : ∀ r : ℤ, dUpSix.recommended_pod_count = some r → 0 ≤ r := by
    intro r hr
    simp only [dUpSix, Option.some.injEq] at hr
    omega
  exact ⟨by decide, hrec,
    reconcile_preserves_invariant cfgInference dUpSix true false (by decide) hrec⟩

/-! ## C3: where validation happens -/

/-- A valid config used for the C3 counterexample. -/
def cfgFive : HPAConfig :=
  { name := "ai-inference-hpa", nspace := "ai-services", min_replicas := 5,
    max_replicas := 20, target_cpu_utilization := 70, target_memory_utilization := 80 }

/-- A scale-down decision recommending -3 pods. -/
def dNegThree : ScalingDecision :=
  { action := "scale_down_horizontal", recommended_pod_count := some (-3),
    recommended_memory_increase := none, recommended_cpu_increase := none,
    confidence := 0, reasoning := "", urgency := "low", estimated_cost_impact := none }

/-- C3 counterexample: a reconcile mutation attempt that produces a config
violating `min_replicas ≤ max_replicas` does not fail and does not leave
the config unchanged — the call returns normally (the reconcile path has
no error case at all) with the config mutated into the invalid state
`min_replicas = 2, max_replicas = 0`. -/
theorem reconcile_no_validation_counterexample :
    validHPA cfgFive ∧
    (applyDecisionToHpa cfgFive dNegThree true false).1 ≠ cfgFive ∧
    ¬ validHPA (applyDecisionToHpa cfgFive dNegThree true false).1 := by
  refine ⟨by decide, ?_, ?_⟩
  · rw [applyDecisionToHpa_fst]
    decide
  · rw [applyDecisionToHpa_fst]
    decide

/-- C3 (amended): parameter validation happens only at construction:
`HPAConfiguration.__init__` succeeds, creating an object with exactly the
given fields, if and only if min_replicas ≥ 1, max_replicas ≥
min_replicas and both targets lie in [1, 100]; otherwise it raises
(ValueError) and no object is created.  Reconcile mutation attempts are
not validated (see the counterexample). -/
theorem mkHPAConfiguration_validates (name nspace : String)
    (mn mx tc tm : ℤ) :
    mkHPAConfiguration name nspace mn mx tc tm =
        Except.ok { name := name, nspace := nspace, min_replicas := mn,
                    max_replicas := mx, target_cpu_utilization := tc,
                    target_memory_utilization := tm } ↔
      (1 ≤ mn ∧ mn ≤ mx ∧ (1 ≤ tc ∧ tc ≤ 100) ∧ (1 ≤ tm ∧ tm ≤ 100)) := by
  unfold mkHPAConfiguration
  split_ifs with g1 g2 g3 g4 <;> simp <;> omega

/-! ## C7: maintain and vertical decisions mutate nothing -/

/-- C7: reconciling a `maintain`, `scale_up_vertical` or
`scale_down_vertical` decision against any config mutates no config field
(so reconciling a `maintain` decision is idempotent), records no changes,
reports `applied = false`, and carries only the advisory note — plus, for
the vertical actions, the recommended memory/cpu increase. -/
theorem reconcile_advisory_frame (cfg : HPAConfig) (d : ScalingDecision)
    (dryRun clusterOk : Bool)
    (hact : d.action = "maintain" ∨ d.action = "scale_up_vertical" ∨
      d.action = "scale_down_vertical") :
    (applyDecisionToHpa cfg d dryRun clusterOk).1 = cfg ∧
    (applyDecisionToHpa cfg d dryRun clusterOk).2.changes_min = none ∧
    (applyDecisionToHpa cfg d dryRun clusterOk).2.changes_max = none ∧
    (applyDecisionToHpa cfg d dryRun clusterOk).2.applied = false ∧
    (d.action = "maintain" →
      (applyDecisionToHpa cfg d dryRun clusterOk).2.note =
        some "No HPA changes needed, current configuration is appropriate") ∧
    ((d.action = "scale_up_vertical" ∨ d.action = "scale_down_vertical") →
      (applyDecisionToHpa cfg d dryRun clusterOk).2.note =
          some "Vertical scaling requires deployment resource updates, not HPA changes" ∧
        (applyDecisionToHpa cfg d dryRun clusterOk).2.recommendation =
          some (d.recommended_memory_increase, d.recommended_cpu_increase)) := by
  obtain ⟨act, rec, rm, rc, conf, reas, urg, cost⟩ := d
  rcases hact with h | h | h <;>
    simp only at h <;> subst h <;>
    simp [applyDecisionToHpa, applyStep]

/-- A maintain decision for the C7 witness. -/
def dMaintain : ScalingDecision :=
  { action := "maintain", recommended_pod_count := some 3,
    recommended_memory_increase := none, recommended_cpu_increase := none,
    confidence := 0.90, reasoning := "All metrics within acceptable ranges",
    urgency := "normal", estimated_cost_impact := none }

/-- C7 witness: the frame theorem applied to the example config and a
maintain decision. -/
theorem reconcile_advisory_frame_witness :
    (dMaintain.action = "maintain" ∨ dMaintain.action = "scale_up_vertical" ∨
      dMaintain.action = "scale_down_vertical") ∧
    (applyDecisionToHpa cfgInference dMaintain true false).1 = cfgInference ∧
    (applyDecisionToHpa cfgInference dMaintain true false).2.applied = false :=
  ⟨Or.inl rfl,
   (reconcile_advisory_frame cfgInference dMaintain true false (Or.inl rfl)).1,
   (reconcile_advisory_frame cfgInference dMaintain true false (Or.inl rfl)).2.2.2.1⟩

/-! ## C10: horizontal decisions with no usable recommendation -/

/-- C10: reconciling a horizontal decision whose `recommended_pod_count`
is `None` or `0` (both falsy in Python) leaves every config field
unchanged, records an empty change set and reports `applied = false`. -/
theorem reconcile_falsy_recommendation_frame (cfg : HPAConfig) (d : ScalingDecision)
    (dryRun clusterOk : Bool)
    (hact : d.action = "scale_up_horizontal" ∨ d.action = "scale_down_horizontal")
    (hrec : d.recommended_pod_count = none ∨ d.recommended_pod_count = some 0) :
    (applyDecisionToHpa cfg d dryRun clusterOk).1 = cfg ∧
    (applyDecisionToHpa cfg d dryRun clusterOk).2.changes_min = none ∧
    (applyDecisionToHpa cfg d dryRun clusterOk).2.changes_max = none ∧
    (applyDecisionToHpa cfg d dryRun clusterOk).2.applied = false := by
  obtain ⟨act, rec, rm, rc, conf, reas, urg, cost⟩ := d
  simp only at hact hrec
  rcases hact with h | h <;> subst h <;>
    rcases hrec with h' | h' <;> subst h' <;>
    simp [applyDecisionToHpa, applyStep]

/-- A scale-up decision with no recommended pod count. -/
def dUpNone : ScalingDecision :=
  { action := "scale_up_horizontal", recommended_pod_count := none,
    recommended_memory_increase := none, recommended_cpu_increase := none,
    confidence := 0.5, reasoning := "", urgency := "high",
    estimated_cost_impact := none }

/-- C10 witness: the frame theorem applied to the example config and a
scale-up decision without a recommendation. -/
theorem reconcile_falsy_recommendation_frame_witness :
    (dUpNone.action = "scale_up_horizontal" ∨ dUpNone.action = "scale_down_horizontal") ∧
    (dUpNone.recommended_pod_count = none ∨ dUpNone.recommended_pod_count = some 0) ∧
    (applyDecisionToHpa cfgInference dUpNone false true).1 = cfgInference ∧
    (applyDecisionToHpa cfgInference dUpNone false true).2.applied = false :=
  ⟨Or.inl rfl, Or.inl rfl,
   (reconcile_falsy_recommendation_frame cfgInference dUpNone false true
      (Or.inl rfl) (Or.inl rfl)).1,
   (reconcile_falsy_recommendation_frame cfgInference dUpNone false true
      (Or.inl rfl) (Or.inl rfl)).2.2.2⟩

/-! ## C5: invalid JSON falls back to the rule-based decision -/

/-- C5: when context preparation succeeds and the backend returns a
response whose fence-stripped text fails to parse as JSON, `analyze`
returns exactly the rule-based decision for the same snapshot, with no
failure surfaced to the caller. -/
theorem analyze_invalid_json_fallback (parse : String → Option DecisionData)
    (backend : String → Except String String) (m : ScalingMetrics)
    (hist : List ScalingMetrics) (ctx raw : String)
    (hctx : prepareAIContext hist = Except.ok ctx)
    (hraw : backend ctx = Except.ok raw)
    (hparse : parse (stripFences raw) = none) :
    analyzeMetrics true parse backend m hist = Except.ok (ruleBasedDecision m) := by
  rw [analyzeMetrics, if_pos rfl, aiBasedDecision, hctx]
  show (match backend ctx with
    | Except.error _ => pure (ruleBasedDecision m)
    | Except.ok raw => pure (aiDecodeOrFallback parse m raw)) = _
  rw [hraw]
  show Except.ok (aiDecodeOrFallback parse m raw) = _
  rw [aiDecodeOrFallback, hparse]

/-- A parser that always fails, modelling `json.loads` on non-JSON text. -/
def parseNone : String → Option DecisionData := fun _ => none

/-- A backend that always returns a fixed non-JSON response. -/
def backendBad : String → Except String String := fun _ => Except.ok "not json"

/-- C5 witness: the fallback theorem applied to the spike snapshot with an
empty history and the non-JSON backend. -/
theorem analyze_invalid_json_fallback_witness :
    prepareAIContext [] = Except.ok "" ∧
    backendBad "" = Except.ok "not json" ∧
    parseNone (stripFences "not json") = none ∧
    analyzeMetrics true parseNone backendBad mSpike [] =
      Except.ok (ruleBasedDecision mSpike) :=
  ⟨rfl, rfl, rfl,
   analyze_invalid_json_fallback parseNone backendBad mSpike [] "" "not json" rfl rfl rfl⟩

/-! ## C6: analyze can raise ZeroDivisionError -/

/-- An idle snapshot with zero request rate (no traffic), the C6 failing
input: any history of two or more such snapshots has overall mean request
rate 0, and `_calculate_trend` divides by it. -/
def mIdleZeroRps : ScalingMetrics :=
  { cpu_utilization := 30, memory_utilization := 40, request_rate := 0,
    response_time_ms := 20, error_rate := 0, active_connections := 10,
    queue_depth := 0, current_pod_count := 3 }

theorem calculateTrend_const (x : ℚ) (hx : x ≠ 0) :
    calculateTrend [x, x] = Except.ok "stable" := by
  rw [calculateTrend, if_neg (by norm_num)]
  have hsum : ([x, x] : List ℚ).sum = 2 * x := by
    simp [List.sum_cons]
    ring
  have hover : ([x, x] : List ℚ).sum / (([x, x] : List ℚ).length : ℚ) = x := by
    rw [hsum]
    norm_num
  rw [if_neg (by rw [hover]; exact hx)]
  have hdrop : ([x, x] : List ℚ).drop (([x, x] : List ℚ).length - 3) = [x, x] := by
    norm_num
  rw [hdrop, hover]
  have hrec : ([x, x] : List ℚ).sum / ((min 3 ([x, x] : List ℚ).length : ℕ) : ℚ) = x := by
    rw [hsum]
    norm_num
  rw [hrec]
  rw [if_neg (by rw [sub_self, zero_div, zero_mul]; norm_num),
    if_neg (by rw [sub_self, zero_div, zero_mul]; norm_num)]

theorem calculateTrend_zero_pair : calculateTrend [0, 0] = Except.error "ZeroDivisionError" := by
  rw [calculateTrend, if_neg (by norm_num)]
  rw [if_pos (by norm_num)]

/-- C6 (code evaluated at the failing input): with a client configured and
a history of two idle snapshots whose request rate is 0, `analyze`
propagates a ZeroDivisionError from `_calculate_trend` (the division
`(recent_avg - overall_avg) / overall_avg` with `overall_avg = 0` happens
in `_prepare_ai_context`, before the `try` block), instead of returning a
`ScalingDecision`.  This holds for every parser and every backend — the
call fails before either is consulted. -/
theorem analyze_zero_rps_raises (parse : String → Option DecisionData)
    (backend : String → Except String String) :
    analyzeMetrics true parse backend mIdleZeroRps [mIdleZeroRps, mIdleZeroRps] =
      Except.error "ZeroDivisionError" := by
  rw [analyzeMetrics, if_pos rfl, aiBasedDecision, prepareAIContext]
  rw [if_pos (by norm_num)]
  have hcpu : calculateTrend (([mIdleZeroRps, mIdleZeroRps]).map
      (fun m => m.cpu_utilization)) = Except.ok "stable" := by
    show calculateTrend [30, 30] = Except.ok "stable"
    exact calculateTrend_const 30 (by norm_num)
  have hmem : calculateTrend (([mIdleZeroRps, mIdleZeroRps]).map
      (fun m => m.memory_utilization)) = Except.ok "stable" := by
    show calculateTrend [40, 40] = Except.ok "stable"
    exact calculateTrend_const 40 (by norm_num)
  have hrps : calculateTrend (([mIdleZeroRps, mIdleZeroRps]).map
      (fun m => m.request_rate)) = Except.error "ZeroDivisionError" := by
    show calculateTrend [0, 0] = Except.error "ZeroDivisionError"
    exact calculateTrend_zero_pair
  rw [hcpu, hmem, hrps]
  rfl

/-! ## C8: the low-traffic hour rule -/

/-- C8: for a nonempty history, `analyze_patterns` succeeds and an hour
appears in `low_traffic_hours` iff it has data, its hourly mean cpu is
below half the global mean cpu and its hourly mean request rate is below
half the global mean request rate; the resulting hours are in ascending
order. -/
theorem lowTrafficHours_spec (history : List (Fin 24 × ScalingMetrics))
    (h : Fin 24) (hne : history ≠ []) :
    analyzePatterns history = Except.ok (patternsOf history) ∧
    (h ∈ (patternsOf history).low_traffic_hours ↔
      h ∈ hourKeys history ∧
        meanCpuAt history h < globalMeanCpu history * 0.5 ∧
        meanRpsAt history h < globalMeanRps history * 0.5) ∧
    List.Pairwise (fun a b => a ≤ b) (patternsOf history).low_traffic_hours := by
  refine ⟨?_, ?_, ?_⟩
  · rw [analyzePatterns, if_neg]
    simp [List.isEmpty_iff, hne]
  · show h ∈ lowTrafficHours history ↔ _
    rw [lowTrafficHours, sortedHours]
    simp only [List.mem_filter, List.mem_finRange, true_and, decide_eq_true_eq]
  · show List.Pairwise _ (lowTrafficHours history)
    rw [lowTrafficHours, sortedHours]
    exact List.Pairwise.filter _ (List.Pairwise.filter _ (by decide))

/-- A quiet snapshot for hour 2 of the C8 witness history. -/
def mQuiet : ScalingMetrics :=
  { cpu_utilization := 10, memory_utilization := 20, request_rate := 5,
    response_time_ms := 30, error_rate := 0, active_connections := 40,
    queue_depth := 0, current_pod_count := 3 }

/-- A busy snapshot for hour 3 of the C8 witness history. -/
def mBusy : ScalingMetrics :=
  { cpu_utilization := 100, memory_utilization := 80, request_rate := 100,
    response_time_ms := 200, error_rate := 2, active_connections := 900,
    queue_depth := 20, current_pod_count := 6 }

/-- The C8 witness history: one quiet hour and one busy hour. -/
def histQuietBusy : List (Fin 24 × ScalingMetrics) := [(2, mQuiet), (3, mBusy)]

/-- C8 witness: the characterisation applied to a concrete two-hour
history at hour 2. -/
theorem lowTrafficHours_spec_witness :
    histQuietBusy ≠ [] ∧
    analyzePatterns histQuietBusy = Except.ok (patternsOf histQuietBusy) ∧
    List.Pairwise (fun a b => a ≤ b) (patternsOf histQuietBusy).low_traffic_hours := by
  have hne : histQuietBusy ≠ [] := List.cons_ne_nil _ _
  exact ⟨hne, (lowTrafficHours_spec histQuietBusy 2 hne).1,
    (lowTrafficHours_spec histQuietBusy 2 hne).2.2⟩

/-! ## C9: empty history gives explicit empty results -/

/-- C9: an empty history makes `analyze_patterns` return the explicit
error dictionary and `generate_schedule` return the `error-schedule`
with no entries; neither raises. -/
theorem emptyHistory_explicit_results (minPods maxPods : ℤ) :
    analyzePatterns [] = Except.error "No metrics history provided" ∧
    generateSchedule [] minPods maxPods =
      { name := "error-schedule", description := "", schedule_entries := [] } :=
  ⟨rfl, rfl⟩

/-! ## C4: the standard hourly schedule entry -/

theorem meanQ_nonneg (l : List ℚ) (h : ∀ x ∈ l, 0 ≤ x) : 0 ≤ meanQ l :=
  div_nonneg (List.sum_nonneg h) (Nat.cast_nonneg _)

theorem meanPodsAt_nonneg (history : List (Fin 24 × ScalingMetrics)) (h : Fin 24)
    (hpods : ∀ p ∈ history, 0 ≤ (p.2).current_pod_count) :
    0 ≤ meanPodsAt history h := by
  apply meanQ_nonneg
  intro x hx
  obtain ⟨m, hm, rfl⟩ := List.mem_map.mp hx
  obtain ⟨p, hp, rfl⟩ := List.mem_map.mp hm
  exact_mod_cast hpods p (List.mem_filter.mp hp).1

/-- C4 (amended): for every hour with data (and a history with
nonnegative pod counts), `generate_schedule` emits a standard entry at
"HH:00" with confidence 0.85 whose `target_pods` is
`int(mean_pods * max(1, max(mean_cpu/70, mean_memory/80)))` — Python
`int` truncation, i.e. the floor, not the rounding — clamped to
`[min_pods, max_pods]`. -/
theorem generateSchedule_hour_entry (history : List (Fin 24 × ScalingMetrics))
    (h : Fin 24) (minPods maxPods : ℤ)
    (hmem : h ∈ hourKeys history)
    (hpods : ∀ p ∈ history, 0 ≤ (p.2).current_pod_count) :
    ({ time := fmt2 h.val ++ ":00"
       target_pods := max minPods (min maxPods
        ⌊meanPodsAt history h *
          max 1 (max (meanCpuAt history h / 70) (meanMemoryAt history h / 80))⌋)
       reason := "Scheduled scaling for hour " ++ toString h.val
       confidence := 0.85
       day_of_week := none } : ScheduleEntry) ∈
      (generateSchedule history minPods maxPods).schedule_entries := by
  have hne : history ≠ [] := by
    rintro rfl
    simp [hourKeys] at hmem
  have hok : analyzePatterns history = Except.ok (patternsOf history) := by
    rw [analyzePatterns, if_neg]
    simp [List.isEmpty_iff, hne]
  rw [generateSchedule, hok]
  apply List.mem_append_left
  rw [List.mem_flatMap]
  refine ⟨(h, hourlyAvgAt history h), ?_, ?_⟩
  · apply List.mem_map_of_mem
    rw [sortedHours, List.mem_filter]
    exact ⟨List.mem_finRange h, by simpa using hmem⟩
  · rw [hourEntries]
    apply List.mem_append_right
    apply List.mem_singleton.mpr
    have hq : 0 ≤ meanPodsAt history h *
        max 1 (max (meanCpuAt history h / 70) (meanMemoryAt history h / 80)) :=
      mul_nonneg (meanPodsAt_nonneg history h hpods)
        (le_trans zero_le_one (le_max_left 1 _))
    dsimp only [hourlyAvgAt]
    rw [pyInt_of_nonneg _ hq]

/-- A balanced snapshot at the target utilizations, for the C4 witness. -/
def mSched : ScalingMetrics :=
  { cpu_utilization := 70, memory_utilization := 80, request_rate := 10,
    response_time_ms := 50, error_rate := 1, active_connections := 100,
    queue_depth := 2, current_pod_count := 3 }

/-- The single-hour C4 witness history. -/
def histSched : List (Fin 24 × ScalingMetrics) := [(0, mSched)]

/-- C4 witness: the hourly-entry theorem applied to a one-hour history. -/
theorem generateSchedule_hour_entry_witness :
    ((0 : Fin 24) ∈ hourKeys histSched) ∧
    (∀ p ∈ histSched, 0 ≤ (p.2).current_pod_count) ∧
    ({ time := fmt2 (0 : Fin 24).val ++ ":00"
       target_pods := max 2 (min 20
        ⌊meanPodsAt histSched 0 *
          max 1 (max (meanCpuAt histSched 0 / 70) (meanMemoryAt histSched 0 / 80))⌋)
       reason := "Scheduled scaling for hour " ++ toString (0 : Fin 24).val
       confidence := 0.85
       day_of_week := none } : ScheduleEntry) ∈
      (generateSchedule histSched 2 20).schedule_entries :=
  ⟨by decide, by decide,
   generateSchedule_hour_entry histSched 0 2 20 (by decide) (by decide)⟩

/-- A snapshot whose scaling factor makes `mean_pods * factor = 2.9`, for
the C4 counterexample: truncation gives 2, rounding gives 3. -/
def mTruncX : ScalingMetrics :=
  { cpu_utilization := 101.5, memory_utilization := 50, request_rate := 100,
    response_time_ms := 400, error_rate := 3, active_connections := 800,
    queue_depth := 30, current_pod_count := 2 }

/-- The single-hour C4 counterexample history. -/
def histTruncX : List (Fin 24 × ScalingMetrics) := [(0, mTruncX)]

theorem histTruncX_cpu : meanCpuAt histTruncX 0 = 203/2 := by
  have hm : metricsAtHour histTruncX 0 = [mTruncX] := rfl
  rw [meanCpuAt, hm]
  norm_num [meanQ, mTruncX]

theorem histTruncX_memory : meanMemoryAt histTruncX 0 = 50 := by
  have hm : metricsAtHour histTruncX 0 = [mTruncX] := rfl
  rw [meanMemoryAt, hm]
  norm_num [meanQ, mTruncX]

theorem histTruncX_rps : meanRpsAt histTruncX 0 = 100 := by
  have hm : metricsAtHour histTruncX 0 = [mTruncX] := rfl
  rw [meanRpsAt, hm]
  norm_num [meanQ, mTruncX]

theorem histTruncX_pods : meanPodsAt histTruncX 0 = 2 := by
  have hm : metricsAtHour histTruncX 0 = [mTruncX] := rfl
  rw [meanPodsAt, hm]
  norm_num [meanQ, mTruncX]

theorem histTruncX_gcpu : globalMeanCpu histTruncX = 203/2 := by
  have hk : hourKeys histTruncX = [0] := rfl
  rw [globalMeanCpu, hk, List.map_cons, List.map_nil, histTruncX_cpu]
  norm_num [meanQ]

theorem histTruncX_grps : globalMeanRps histTruncX = 100 := by
  have hk : hourKeys histTruncX = [0] := rfl
  rw [globalMeanRps, hk, List.map_cons, List.map_nil, histTruncX_rps]
  norm_num [meanQ]

theorem histTruncX_peak : peakHours histTruncX = [] := by
  have hs : sortedHours histTruncX = [0] := rfl
  rw [peakHours, hs]
  have hcond : ¬ (meanCpuAt histTruncX 0 > globalMeanCpu histTruncX * 1.5 ∨
      meanRpsAt histTruncX 0 > globalMeanRps histTruncX * 1.5) := by
    rw [histTruncX_cpu, histTruncX_gcpu, histTruncX_rps, histTruncX_grps]
    norm_num
  simp [hcond]

theorem histTruncX_low : lowTrafficHours histTruncX = [] := by
  have hs : sortedHours histTruncX = [0] := rfl
  rw [lowTrafficHours, hs]
  have hcond : ¬ (meanCpuAt histTruncX 0 < globalMeanCpu histTruncX * 0.5 ∧
      meanRpsAt histTruncX 0 < globalMeanRps histTruncX * 0.5) := by
    rw [histTruncX_cpu, histTruncX_gcpu]
    norm_num
  simp [hcond]

/-- C4 counterexample: for a one-hour history with mean pods 2 and
scaling factor 1.45, `generate_schedule` emits target 2 (Python `int`
truncation of 2.9) while the claim's formula, rounding 2.9 and clamping
to [2, 20], gives 3. -/
theorem generateSchedule_round_counterexample :
    (generateSchedule histTruncX 2 20).schedule_entries =
      [{ time := "00:00", target_pods := 2,
         reason := "Scheduled scaling for hour 0", confidence := 0.85,
         day_of_week := none }] ∧
    max 2 (min 20 (round (meanPodsAt histTruncX 0 *
      max 1 (max (meanCpuAt histTruncX 0 / 70) (meanMemoryAt histTruncX 0 / 80))))) = 3 := by
  have hfactor : max 1 (max (meanCpuAt histTruncX 0 / 70) (meanMemoryAt histTruncX 0 / 80)) =
      29/20 := by
    rw [histTruncX_cpu, histTruncX_memory]
    rw [max_eq_left (by norm_num : (50 : ℚ)/80 ≤ 203/2/70)]
    rw [max_eq_right (by norm_num : (1 : ℚ) ≤ 203/2/70)]
    norm_num
  constructor
  · have hok : analyzePatterns histTruncX = Except.ok (patternsOf histTruncX) := rfl
    rw [generateSchedule, hok]
    have hs : sortedHours histTruncX = [0] := rfl
    simp only [patternsOf, hs, histTruncX_peak, histTruncX_low, List.map_cons,
      List.map_nil, List.flatMap_cons, List.flatMap_nil, List.append_nil]
    rw [hourEntries]
    simp only [List.not_mem_nil, if_false, List.nil_append]
    have htarget : pyInt ((hourlyAvgAt histTruncX 0).avg_pods *
        max 1 (max ((hourlyAvgAt histTruncX 0).cpu / 70)
          ((hourlyAvgAt histTruncX 0).memory / 80))) = 2 := by
      dsimp only [hourlyAvgAt]
      rw [hfactor, histTruncX_pods, pyInt_of_nonneg _ (by norm_num)]
      norm_num
    dsimp only [hourlyAvgAt] at htarget ⊢
    rw [htarget]
    norm_num [fmt2]
    exact ⟨by decide, by decide⟩
  · rw [hfactor, histTruncX_pods, round_eq]
    norm_num
